import Mathlib

/-!
# Verification of `assets/brand/generate-icons.py`

Shallow embedding of the SubNetree icon generator. The script draws a fixed
tree-topology scene onto a fresh RGBA canvas with Pillow primitives and exports
it as ICO / PNG files. We model a render as the square canvas together with the
ordered list of drawing-primitive invocations issued to the library; the
library's rasterisation and file encoding are outside the program (per the
repository's own scope statement) and are not modelled.

Numeric model: Python computes `s = size / 256` in floating point and truncates
with `int(...)`. Every design length in the script is an integer or a
half-integer, and `size/256` is dyadic, so the float products are exact and
`int(w * s) = floor(w * size / 256)` exactly; we therefore carry lengths as
*half design units* (twice the design value, so 4.5 becomes 9) and use exact
natural-number floor division.
-/

/-- An RGBA color. Palette entries written as 3-tuples in the script are drawn
opaquely on the RGBA canvas, so they are modelled with alpha 255. -/
structure RGBA where
  r : Nat
  g : Nat
  b : Nat
  a : Nat
deriving DecidableEq, Repr

/-- A color palette, mirroring the keys of the `DARK` / `LIGHT` dicts. -/
structure Palette where
  bg : RGBA
  card : RGBA
  green : RGBA
  earth : RGBA
  sage : RGBA
  line_green : RGBA
  line_earth : RGBA
  line_faint : RGBA
  ring : RGBA
  sage_dim : RGBA
deriving DecidableEq, Repr

/-- The `DARK` palette of the script. -/
def DARK : Palette :=
  { bg := ⟨12, 26, 14, 255⟩
  , card := ⟨26, 46, 28, 255⟩
  , green := ⟨74, 222, 128, 255⟩
  , earth := ⟨196, 167, 125, 255⟩
  , sage := ⟨156, 163, 137, 255⟩
  , line_green := ⟨74, 222, 128, 89⟩
  , line_earth := ⟨196, 167, 125, 89⟩
  , line_faint := ⟨74, 222, 128, 18⟩
  , ring := ⟨74, 222, 128, 25⟩
  , sage_dim := ⟨156, 163, 137, 127⟩ }

/-- The `LIGHT` palette of the script. -/
def LIGHT : Palette :=
  { bg := ⟨245, 245, 240, 255⟩
  , card := ⟨245, 245, 240, 255⟩
  , green := ⟨22, 163, 74, 255⟩
  , earth := ⟨146, 115, 78, 255⟩
  , sage := ⟨107, 122, 86, 255⟩
  , line_green := ⟨22, 101, 52, 102⟩
  , line_earth := ⟨146, 116, 78, 102⟩
  , line_faint := ⟨22, 101, 52, 18⟩
  , ring := ⟨22, 101, 52, 25⟩
  , sage_dim := ⟨100, 116, 80, 127⟩ }

/-- One invocation of a Pillow drawing primitive, in the order the script
issues them. Bounding boxes are kept exactly as the script passes them. -/
inductive Cmd where
  | rect (x0 y0 x1 y1 : Int) (fill : RGBA)
  | roundedRect (x0 y0 x1 y1 : Int) (radius : Nat) (fill : RGBA)
  | line (x1 y1 x2 y2 : Int) (color : RGBA) (width : Nat)
  | ellipse (x0 y0 x1 y1 : Int) (fill : Option RGBA) (outline : Option RGBA) (width : Nat)
deriving DecidableEq, Repr

/-- A render result: the fresh canvas `Image.new("RGBA", (size, size), (0,0,0,0))`
plus the drawing commands applied to it, in order. -/
structure Image where
  mode : String
  width : Nat
  height : Nat
  initColor : RGBA
  cmds : List Cmd
deriving DecidableEq, Repr

/-- `int(x * s)` for an integer design coordinate `x`: `sc` in the script
(componentwise). Equals `x * size / 256` by the exactness argument above. -/
def scN (x size : Nat) : Nat := x * size / 256

/-- `int(w * s)` for a half-integer design length given as `w2 = 2*w`:
`floor((w2/2) * size / 256) = w2 * size / 512`. -/
def scH (w2 size : Nat) : Nat := w2 * size / 512

/-- `lw(w)` of the script: `max(1, int(w * s))`, the argument in half units. -/
def lw (w2 size : Nat) : Nat := max 1 (scH w2 size)

/-- `draw_line(x1, y1, x2, y2, color, width)` of the script (width in half
design units). -/
def draw_line (size x1 y1 x2 y2 : Nat) (color : RGBA) (w2 : Nat) : Cmd :=
  Cmd.line (scN x1 size) (scN y1 size) (scN x2 size) (scN y2 size) color (lw w2 size)

/-- `draw_node(cx, cy, outer_r, inner_r, stroke_color, fill_color, bg_color,
stroke_w)` of the script; radii and stroke width in half design units. The
inner dot carries Pillow's default outline width 1 and no outline color. -/
def draw_node (size cx cy outer_r2 inner_r2 : Nat)
    (stroke_color fill_color bg_color : RGBA) (stroke_w2 : Nat) : List Cmd :=
  let ox := scN cx size
  let oy := scN cy size
  let or_px := max 1 (scH outer_r2 size)
  let ir_px := max 1 (scH inner_r2 size)
  let sw := max 1 (scH stroke_w2 size)
  [Cmd.ellipse ((ox : Int) - or_px) ((oy : Int) - or_px)
      ((ox : Int) + or_px) ((oy : Int) + or_px)
      (some bg_color) (some stroke_color) sw]
  ++ (if 0 < ir_px then
        [Cmd.ellipse ((ox : Int) - ir_px) ((oy : Int) - ir_px)
            ((ox : Int) + ir_px) ((oy : Int) + ir_px)
            (some fill_color) none 1]
      else [])

/-- The background fill: rounded rectangle with `r = int(32*s)` raised to 2
when below, else a plain rectangle. -/
def backgroundCmds (size : Nat) (palette : Palette) (rounded_bg : Bool) : List Cmd :=
  if rounded_bg then
    let r := scN 32 size
    let r := if r < 2 then 2 else r
    [Cmd.roundedRect 0 0 ((size : Int) - 1) ((size : Int) - 1) r palette.bg]
  else
    [Cmd.rect 0 0 ((size : Int) - 1) ((size : Int) - 1) palette.bg]

/-- The outer decorative ring, drawn only when `show_ring` (`size >= 64`). -/
def outerRingCmds (size : Nat) (palette : Palette) : List Cmd :=
  if 64 ≤ size then
    let cx := scN 128 size
    let cy := scN 128 size
    let r := scN 114 size
    [Cmd.ellipse ((cx : Int) - r) ((cy : Int) - r) ((cx : Int) + r) ((cy : Int) + r)
        none (some palette.ring) (lw 4 size)]
  else []

/-- The trunk line. -/
def trunkCmds (size : Nat) (palette : Palette) : List Cmd :=
  [draw_line size 128 200 128 132 palette.line_green 10]

/-- The two main branches. -/
def mainBranchCmds (size : Nat) (palette : Palette) : List Cmd :=
  [draw_line size 128 132 72 88 palette.line_green 9,
   draw_line size 128 132 184 88 palette.line_green 9]

/-- The four leaf branches. -/
def leafBranchCmds (size : Nat) (palette : Palette) : List Cmd :=
  [draw_line size 72 88 44 56 palette.line_earth 7,
   draw_line size 72 88 100 56 palette.line_earth 7,
   draw_line size 184 88 156 56 palette.line_earth 7,
   draw_line size 184 88 212 56 palette.line_earth 7]

/-- The faint discovery link, drawn only when `show_details` (`size >= 32`). -/
def discoveryLinkCmds (size : Nat) (palette : Palette) : List Cmd :=
  if 32 ≤ size then
    [draw_line size 100 56 156 56 palette.line_faint 4]
  else []

/-- The two satellite lines, drawn only when `show_satellites` (`size >= 48`),
in the color `(*palette["sage"][:3], 38)` computed inside `draw_icon`. -/
def satelliteLineCmds (size : Nat) (palette : Palette) : List Cmd :=
  if 48 ≤ size then
    let sage_line : RGBA := ⟨palette.sage.r, palette.sage.g, palette.sage.b, 38⟩
    [draw_line size 128 132 96 156 sage_line 4,
     draw_line size 128 132 164 152 sage_line 4]
  else []

/-- The four leaf device nodes (loop over the four centers, unrolled). -/
def leafNodeCmds (size : Nat) (palette : Palette) : List Cmd :=
  draw_node size 44 56 20 9 palette.earth palette.earth palette.card 6
  ++ draw_node size 100 56 20 9 palette.earth palette.earth palette.card 6
  ++ draw_node size 156 56 20 9 palette.earth palette.earth palette.card 6
  ++ draw_node size 212 56 20 9 palette.earth palette.earth palette.card 6

/-- The two subnet gateway nodes. -/
def gatewayNodeCmds (size : Nat) (palette : Palette) : List Cmd :=
  draw_node size 72 88 26 12 palette.green palette.green palette.card 8
  ++ draw_node size 184 88 26 12 palette.green palette.green palette.card 8

/-- The junction node. -/
def junctionNodeCmds (size : Nat) (palette : Palette) : List Cmd :=
  draw_node size 128 132 30 15 palette.green palette.green palette.card 8

/-- The two satellite nodes, drawn only when `show_satellites` (`size >= 48`). -/
def satelliteNodeCmds (size : Nat) (palette : Palette) : List Cmd :=
  if 48 ≤ size then
    draw_node size 96 156 14 6 palette.sage_dim palette.sage palette.card 5
    ++ draw_node size 164 152 14 6 palette.sage_dim palette.sage palette.card 5
  else []

/-- The glow ring around the root node, drawn only when `show_ring`
(`size >= 64`). -/
def glowRingCmds (size : Nat) (palette : Palette) : List Cmd :=
  if 64 ≤ size then
    let ox := scN 128 size
    let oy := scN 200 size
    let gr := scN 21 size
    [Cmd.ellipse ((ox : Int) - gr) ((oy : Int) - gr) ((ox : Int) + gr) ((oy : Int) + gr)
        none (some palette.ring) (lw 4 size)]
  else []

/-- The root server node. -/
def rootNodeCmds (size : Nat) (palette : Palette) : List Cmd :=
  draw_node size 128 200 36 18 palette.green palette.green palette.card 10

/-- `draw_icon(size, palette, rounded_bg)`: the fresh transparent RGBA canvas
and the drawing commands in the exact order the script issues them. -/
def draw_icon (size : Nat) (palette : Palette) (rounded_bg : Bool) : Image :=
  { mode := "RGBA"
  , width := size
  , height := size
  , initColor := ⟨0, 0, 0, 0⟩
  , cmds :=
      backgroundCmds size palette rounded_bg
      ++ outerRingCmds size palette
      ++ trunkCmds size palette
      ++ mainBranchCmds size palette
      ++ leafBranchCmds size palette
      ++ discoveryLinkCmds size palette
      ++ satelliteLineCmds size palette
      ++ leafNodeCmds size palette
      ++ gatewayNodeCmds size palette
      ++ junctionNodeCmds size palette
      ++ satelliteNodeCmds size palette
      ++ glowRingCmds size palette
      ++ rootNodeCmds size palette }

/-- The ICO container written by `generate_ico`: one file at the given path
holding all rendered resolutions, indexed by `(width, height)` pairs. The
`SCRIPT_DIR` prefix of the path is environment-determined and not modelled. -/
structure IcoFile where
  path : String
  sizes : List (Nat × Nat)
  images : List Image
deriving DecidableEq, Repr

/-- `generate_ico(filename, palette)`: renders the fixed size list with
`rounded_bg=(sz >= 32)` and packs all rasters into one container. -/
def generate_ico (filename : String) (palette : Palette) : IcoFile :=
  let sizes : List Nat := [16, 24, 32, 48, 64, 128, 256]
  let images := sizes.map fun sz => draw_icon sz palette (decide (32 ≤ sz))
  { path := filename
  , sizes := sizes.map fun sz => (sz, sz)
  , images := images }

/-- One standalone PNG file written by `generate_pngs`. -/
structure PngFile where
  path : String
  image : Image
deriving DecidableEq, Repr

/-- `generate_pngs(prefix, palette)`: one file `{prefix}-{sz}.png` per size in
the fixed list, each rendered with a rounded background. -/
def generate_pngs (pfx : String) (palette : Palette) : List PngFile :=
  [32, 64, 128, 256, 512].map fun sz =>
    { path := pfx ++ "-" ++ toString sz ++ ".png"
    , image := draw_icon sz palette true }

/-- One export performed by the `__main__` driver. -/
inductive ExportAction where
  | ico (filename : String) (palette : Palette)
  | pngSet (pfx : String) (palette : Palette)
deriving DecidableEq, Repr

/-- Whether an export action is a PNG-set export. -/
def ExportAction.isPngSet : ExportAction → Bool
  | .pngSet _ _ => true
  | _ => false

/-- Whether an export action is a multi-resolution icon (ICO) export. -/
def ExportAction.isIco : ExportAction → Bool
  | .ico _ _ => true
  | _ => false

/-- The exports performed by the no-argument `__main__` entry point, in
program order (progress printing is not modelled). -/
def mainActions : List ExportAction :=
  [ExportAction.ico "subnetree.ico" DARK,
   ExportAction.ico "subnetree-light.ico" LIGHT,
   ExportAction.pngSet "icon-dark" DARK,
   ExportAction.pngSet "icon-light" LIGHT]

/-- The corner radius as the specification words it:
`max(2, round(32 × size/256))`, with `round` to nearest and ties rounded
upward (Python's ties-to-even agrees at every size where a tie occurs in the
statements below). Stated from the spec's words for comparison with the
code's truncating computation. -/
def specCornerRadius (size : Nat) : Nat := max 2 ((32 * size + 128) / 256)

/-- Whether a command's geometry is at least one pixel: a line has width ≥ 1,
an ellipse has radius ≥ 1 (its bounding box spans ≥ 2) and, when outlined,
outline width ≥ 1. Rectangle fills carry no line width or circle radius. -/
def Cmd.geomOK : Cmd → Bool
  | .line _ _ _ _ _ w => decide (1 ≤ w)
  | .ellipse x0 _ x1 _ _ o w => decide (2 ≤ x1 - x0) && (o.isNone || decide (1 ≤ w))
  | _ => true

/-- Whether a command uses the given color, as a fill, outline or line color. -/
def Cmd.usesColor (col : RGBA) : Cmd → Bool
  | .rect _ _ _ _ f => decide (f = col)
  | .roundedRect _ _ _ _ _ f => decide (f = col)
  | .line _ _ _ _ c _ => decide (c = col)
  | .ellipse _ _ _ _ f o _ => decide (f = some col) || decide (o = some col)

/-- Whether a command is the outer circle of a satellite node: card-colored
fill with a `sage_dim` stroke. -/
def Cmd.isSatelliteNodeStroke (p : Palette) : Cmd → Bool
  | .ellipse _ _ _ _ f o _ => decide (f = some p.card) && decide (o = some p.sage_dim)
  | _ => false

/-- The property that a command either does not use the palette's `sage_dim`
color at all, or is the stroke of a satellite node. -/
def sageDimOnlyOnSatellites (p : Palette) (c : Cmd) : Bool :=
  !(c.usesColor p.sage_dim) || c.isSatelliteNodeStroke p

/-!
## Theorems
-/

/-- `draw_node` in equational form: the inner-dot guard `if ir_px > 0` always
passes because `ir_px = max 1 ...`. Shared helper for the theorems below. -/
theorem draw_node_eq (size cx cy o2 i2 : Nat) (sC fC bC : RGBA) (w2 : Nat) :
    draw_node size cx cy o2 i2 sC fC bC w2 =
      [Cmd.ellipse ((scN cx size : Int) - max 1 (scH o2 size))
          ((scN cy size : Int) - max 1 (scH o2 size))
          ((scN cx size : Int) + max 1 (scH o2 size))
          ((scN cy size : Int) + max 1 (scH o2 size))
          (some bC) (some sC) (max 1 (scH w2 size)),
       Cmd.ellipse ((scN cx size : Int) - max 1 (scH i2 size))
          ((scN cy size : Int) - max 1 (scH i2 size))
          ((scN cx size : Int) + max 1 (scH i2 size))
          ((scN cy size : Int) + max 1 (scH i2 size))
          (some fC) none 1] := by
  simp only [draw_node]
  rw [if_pos (show 0 < max 1 (scH i2 size) by omega)]
  rfl

/-- **C1.** Every node drawn by the renderer is an outer circle filled with
the card/background color and outlined with the stroke color, followed (hence
overlaid) by a smaller filled inner dot; the scaled inner radius
`max(1, int(inner_r*s))` is never 0, so the skip guard `if ir_px > 0` always
passes and the inner dot is skipped exactly when that radius would be 0,
namely never. -/
theorem draw_node_structure (size cx cy outer_r2 inner_r2 : Nat)
    (stroke_color fill_color bg_color : RGBA) (stroke_w2 : Nat) :
    ∃ ox oy : Int, ∃ or_px sw : Nat,
      draw_node size cx cy outer_r2 inner_r2 stroke_color fill_color bg_color stroke_w2 =
        [Cmd.ellipse (ox - or_px) (oy - or_px) (ox + or_px) (oy + or_px)
            (some bg_color) (some stroke_color) sw,
         Cmd.ellipse (ox - (max 1 (scH inner_r2 size) : Nat))
            (oy - (max 1 (scH inner_r2 size) : Nat))
            (ox + (max 1 (scH inner_r2 size) : Nat))
            (oy + (max 1 (scH inner_r2 size) : Nat))
            (some fill_color) none 1] ∧
      1 ≤ or_px ∧ 1 ≤ sw ∧ 1 ≤ max 1 (scH inner_r2 size) := by
  refine ⟨scN cx size, scN cy size, max 1 (scH outer_r2 size),
    max 1 (scH stroke_w2 size), ?_, Nat.le_max_left _ _, Nat.le_max_left _ _,
    Nat.le_max_left _ _⟩
  simp only [draw_node]
  rw [if_pos (show 0 < max 1 (scH inner_r2 size) by omega)]
  rfl

/-- **C2 counterexample.** At size 44 the code's corner radius is
`int(32·44/256) = int(5.5) = 5` (truncation), while the claim's
`max(2, round(32·44/256)) = round(5.5) = 6`; the rounded-rectangle command
actually issued differs from the one the claim prescribes. -/
theorem background_radius_counterexample :
    backgroundCmds 44 DARK true = [Cmd.roundedRect 0 0 43 43 5 DARK.bg] ∧
    specCornerRadius 44 = 6 ∧
    ¬ backgroundCmds 44 DARK true =
        [Cmd.roundedRect 0 0 43 43 (specCornerRadius 44) DARK.bg] := by
  decide

/-- **C2 (amended).** For every size, when `rounded_background` is true the
background fill is a rounded rectangle over the full canvas with corner
radius `max(2, ⌊32 · size/256⌋)` (truncating division, not rounding to
nearest) in the palette's background color; when it is false, a plain square
fill is used instead. -/
theorem background_fill (size : Nat) (p : Palette) :
    backgroundCmds size p true =
      [Cmd.roundedRect 0 0 ((size : Int) - 1) ((size : Int) - 1)
          (max 2 (32 * size / 256)) p.bg] ∧
    backgroundCmds size p false =
      [Cmd.rect 0 0 ((size : Int) - 1) ((size : Int) - 1) p.bg] := by
  constructor
  · simp only [backgroundCmds, if_pos, scN]
    rw [show (if 32 * size / 256 < 2 then 2 else 32 * size / 256)
          = max 2 (32 * size / 256) by split <;> omega]
  · rfl

/-- **C3 counterexample.** The driver performs exactly two PNG-set exports
(`generate_pngs` is called twice), not four as the claim's
"dark and light palettes crossed with two prefixes" would require. -/
theorem main_png_set_count_counterexample :
    mainActions.countP ExportAction.isPngSet = 2 ∧
    ¬ mainActions.countP ExportAction.isPngSet = 4 := by
  decide

/-- **C3 (amended).** The no-argument entry point performs, in this fixed
order, exactly two ICO exports — dark then light — followed by exactly two
PNG-set exports, the dark palette with prefix `icon-dark` then the light
palette with prefix `icon-light`. -/
theorem main_export_order :
    mainActions = [ExportAction.ico "subnetree.ico" DARK,
                   ExportAction.ico "subnetree-light.ico" LIGHT,
                   ExportAction.pngSet "icon-dark" DARK,
                   ExportAction.pngSet "icon-light" LIGHT] ∧
    mainActions.countP ExportAction.isIco = 2 ∧
    mainActions.countP ExportAction.isPngSet = 2 ∧
    mainActions.map ExportAction.isPngSet = [false, false, true, true] := by
  refine ⟨rfl, ?_, ?_, rfl⟩ <;> decide

/-- **C5.** Rendering is deterministic: the render is a pure function of the
`(size, palette, rounded_background)` triple, so two calls with identical
arguments produce identical output. -/
theorem draw_icon_deterministic (s1 s2 : Nat) (p1 p2 : Palette) (b1 b2 : Bool)
    (hs : s1 = s2) (hp : p1 = p2) (hb : b1 = b2) :
    draw_icon s1 p1 b1 = draw_icon s2 p2 b2 := by
  subst hs; subst hp; subst hb; rfl

/-- Witness for `draw_icon_deterministic` at `(64, DARK, true)`. -/
theorem draw_icon_deterministic_witness :
    draw_icon 64 DARK true = draw_icon 64 DARK true :=
  draw_icon_deterministic 64 64 DARK DARK true true rfl rfl rfl

/-- **C6.** For every size ≥ 1, the render is a canvas of exactly
`size × size` pixels in RGBA mode whose default pixel, outside drawn shapes,
is the fully transparent color `(0, 0, 0, 0)`. -/
theorem draw_icon_canvas (size : Nat) (p : Palette) (rb : Bool)
    (hsize : 1 ≤ size) :
    (draw_icon size p rb).width = size ∧
    (draw_icon size p rb).height = size ∧
    (draw_icon size p rb).mode = "RGBA" ∧
    (draw_icon size p rb).initColor = ⟨0, 0, 0, 0⟩ :=
  ⟨rfl, rfl, rfl, rfl⟩

/-- Witness for `draw_icon_canvas` at `(256, DARK, true)`. -/
theorem draw_icon_canvas_witness :
    (draw_icon 256 DARK true).width = 256 ∧
    (draw_icon 256 DARK true).height = 256 ∧
    (draw_icon 256 DARK true).mode = "RGBA" ∧
    (draw_icon 256 DARK true).initColor = ⟨0, 0, 0, 0⟩ :=
  draw_icon_canvas 256 DARK true (by decide)

/-- **C4.** Detail inclusion is monotone in size with thresholds 32
(discovery link), 48 (satellite lines and nodes) and 64 (outer ring and glow
ring): each detail layer is nonempty exactly above its threshold, hence any
detail layer present at a smaller size is present at every larger size; and
at size 16 the command list is exactly the base layer — background, trunk,
two main branches, four leaf branches, four leaf nodes, two gateway nodes,
junction node and root node — with no ring, satellites, or discovery link. -/
theorem detail_inclusion_monotone (p : Palette) (rb : Bool) (a b : Nat)
    (hab : a ≤ b) :
    (discoveryLinkCmds a p ≠ [] ↔ 32 ≤ a) ∧
    (satelliteLineCmds a p ≠ [] ↔ 48 ≤ a) ∧
    (satelliteNodeCmds a p ≠ [] ↔ 48 ≤ a) ∧
    (outerRingCmds a p ≠ [] ↔ 64 ≤ a) ∧
    (glowRingCmds a p ≠ [] ↔ 64 ≤ a) ∧
    (discoveryLinkCmds a p ≠ [] → discoveryLinkCmds b p ≠ []) ∧
    (satelliteLineCmds a p ≠ [] → satelliteLineCmds b p ≠ []) ∧
    (satelliteNodeCmds a p ≠ [] → satelliteNodeCmds b p ≠ []) ∧
    (outerRingCmds a p ≠ [] → outerRingCmds b p ≠ []) ∧
    (glowRingCmds a p ≠ [] → glowRingCmds b p ≠ []) ∧
    (draw_icon 16 p rb).cmds =
      backgroundCmds 16 p rb ++ trunkCmds 16 p ++ mainBranchCmds 16 p
      ++ leafBranchCmds 16 p ++ leafNodeCmds 16 p ++ gatewayNodeCmds 16 p
      ++ junctionNodeCmds 16 p ++ rootNodeCmds 16 p := by
  have hdisc : ∀ s : Nat, discoveryLinkCmds s p ≠ [] ↔ 32 ≤ s := by
    intro s; unfold discoveryLinkCmds; split <;> simp [*]
  have hsatl : ∀ s : Nat, satelliteLineCmds s p ≠ [] ↔ 48 ≤ s := by
    intro s; unfold satelliteLineCmds; split <;> simp [*]
  have hsatn : ∀ s : Nat, satelliteNodeCmds s p ≠ [] ↔ 48 ≤ s := by
    intro s; unfold satelliteNodeCmds; split <;> simp [draw_node, *]
  have hring : ∀ s : Nat, outerRingCmds s p ≠ [] ↔ 64 ≤ s := by
    intro s; unfold outerRingCmds; split <;> simp [*]
  have hglow : ∀ s : Nat, glowRingCmds s p ≠ [] ↔ 64 ≤ s := by
    intro s; unfold glowRingCmds; split <;> simp [*]
  refine ⟨hdisc a, hsatl a, hsatn a, hring a, hglow a, ?_, ?_, ?_, ?_, ?_, ?_⟩
  · rw [hdisc a, hdisc b]; omega
  · rw [hsatl a, hsatl b]; omega
  · rw [hsatn a, hsatn b]; omega
  · rw [hring a, hring b]; omega
  · rw [hglow a, hglow b]; omega
  · simp [draw_icon, discoveryLinkCmds, satelliteLineCmds, satelliteNodeCmds,
      outerRingCmds, glowRingCmds]

/-- Witness for `detail_inclusion_monotone` at `(DARK, true, 64, 128)`. -/
theorem detail_inclusion_monotone_witness :
    (discoveryLinkCmds 64 DARK ≠ [] ↔ 32 ≤ 64) ∧
    (satelliteLineCmds 64 DARK ≠ [] ↔ 48 ≤ 64) ∧
    (satelliteNodeCmds 64 DARK ≠ [] ↔ 48 ≤ 64) ∧
    (outerRingCmds 64 DARK ≠ [] ↔ 64 ≤ 64) ∧
    (glowRingCmds 64 DARK ≠ [] ↔ 64 ≤ 64) ∧
    (discoveryLinkCmds 64 DARK ≠ [] → discoveryLinkCmds 128 DARK ≠ []) ∧
    (satelliteLineCmds 64 DARK ≠ [] → satelliteLineCmds 128 DARK ≠ []) ∧
    (satelliteNodeCmds 64 DARK ≠ [] → satelliteNodeCmds 128 DARK ≠ []) ∧
    (outerRingCmds 64 DARK ≠ [] → outerRingCmds 128 DARK ≠ []) ∧
    (glowRingCmds 64 DARK ≠ [] → glowRingCmds 128 DARK ≠ []) ∧
    (draw_icon 16 DARK true).cmds =
      backgroundCmds 16 DARK true ++ trunkCmds 16 DARK ++ mainBranchCmds 16 DARK
      ++ leafBranchCmds 16 DARK ++ leafNodeCmds 16 DARK ++ gatewayNodeCmds 16 DARK
      ++ junctionNodeCmds 16 DARK ++ rootNodeCmds 16 DARK :=
  detail_inclusion_monotone DARK true 64 128 (by decide)

/-- **C7.** For every filename and palette, the ICO export renders exactly
the sizes 16, 24, 32, 48, 64, 128, 256 in that order — rounded background for
every size ≥ 32 and square background below — and packs all seven rasters
into a single container at the given path, indexed by their square
`(width, height)` pairs. -/
theorem generate_ico_spec (filename : String) (p : Palette) :
    (generate_ico filename p).path = filename ∧
    (generate_ico filename p).images =
      [draw_icon 16 p false, draw_icon 24 p false, draw_icon 32 p true,
       draw_icon 48 p true, draw_icon 64 p true, draw_icon 128 p true,
       draw_icon 256 p true] ∧
    (generate_ico filename p).images.length = 7 ∧
    (generate_ico filename p).sizes =
      [(16, 16), (24, 24), (32, 32), (48, 48), (64, 64), (128, 128), (256, 256)] ∧
    (generate_ico filename p).images.map Image.width =
      [16, 24, 32, 48, 64, 128, 256] := by
  refine ⟨rfl, rfl, rfl, rfl, rfl⟩

/-- **C8.** For every prefix and palette, the PNG-set export renders exactly
the sizes 32, 64, 128, 256, 512, each with a rounded background, and writes
exactly five files named `{prefix}-{size}.png`, one per size, each of
matching dimensions. -/
theorem generate_pngs_spec (pfx : String) (p : Palette) :
    (generate_pngs pfx p).map PngFile.path =
      [pfx ++ "-32.png", pfx ++ "-64.png", pfx ++ "-128.png",
       pfx ++ "-256.png", pfx ++ "-512.png"] ∧
    (generate_pngs pfx p).length = 5 ∧
    (generate_pngs pfx p).map PngFile.image =
      [draw_icon 32 p true, draw_icon 64 p true, draw_icon 128 p true,
       draw_icon 256 p true, draw_icon 512 p true] ∧
    (generate_pngs pfx p).map (fun f => f.image.width) =
      [32, 64, 128, 256, 512] := by
  refine ⟨?_, rfl, rfl, rfl⟩
  simp only [generate_pngs, List.map_cons, List.map_nil]
  rw [show toString (32:Nat) = "32" from rfl, show toString (64:Nat) = "64" from rfl,
    show toString (128:Nat) = "128" from rfl, show toString (256:Nat) = "256" from rfl,
    show toString (512:Nat) = "512" from rfl]
  rw [String.append_assoc, String.append_assoc, String.append_assoc,
    String.append_assoc, String.append_assoc, String.append_assoc,
    String.append_assoc, String.append_assoc, String.append_assoc,
    String.append_assoc]
  rfl

/-- Every line drawn through `draw_line` has width at least 1. -/
theorem draw_line_geomOK (size x1 y1 x2 y2 : Nat) (c : RGBA) (w2 : Nat) :
    (draw_line size x1 y1 x2 y2 c w2).geomOK = true := by
  simp [draw_line, Cmd.geomOK, lw]

/-- Both circles of `draw_node` have radius at least 1 and stroke width at
least 1. -/
theorem draw_node_geomOK (size cx cy o2 i2 : Nat) (sC fC bC : RGBA) (w2 : Nat) :
    ((draw_node size cx cy o2 i2 sC fC bC w2).all Cmd.geomOK) = true := by
  rw [draw_node_eq]
  simp [Cmd.geomOK]
  omega

/-- The background fill carries no line width or circle radius. -/
theorem background_geomOK (size : Nat) (p : Palette) (rb : Bool) :
    ((backgroundCmds size p rb).all Cmd.geomOK) = true := by
  unfold backgroundCmds
  split <;> simp [Cmd.geomOK]

/-- The outer ring, emitted only when `size ≥ 64`, has radius
`⌊114·size/256⌋ ≥ 28 ≥ 1` and width `lw(2) ≥ 1`. -/
theorem outerRing_geomOK (size : Nat) (p : Palette) :
    ((outerRingCmds size p).all Cmd.geomOK) = true := by
  unfold outerRingCmds
  split
  · rename_i h
    simp [Cmd.geomOK, lw, scN]
    omega
  · rfl

/-- The glow ring, emitted only when `size ≥ 64`, has radius
`⌊21·size/256⌋ ≥ 5 ≥ 1` and width `lw(2) ≥ 1`. -/
theorem glowRing_geomOK (size : Nat) (p : Palette) :
    ((glowRingCmds size p).all Cmd.geomOK) = true := by
  unfold glowRingCmds
  split
  · rename_i h
    simp [Cmd.geomOK, lw, scN]
    omega
  · rfl

/-- **C9.** For every size ≥ 1, every line width and every circle radius that
the renderer passes to a drawing primitive is at least 1 pixel: the helpers
`lw` and the node radii round up to at least 1, and the outer-ring and
glow-ring radii, computed inline without such rounding, are nevertheless ≥ 1
because they are only emitted under the `size ≥ 64` guard. -/
theorem draw_icon_geom_min_one (size : Nat) (p : Palette) (rb : Bool)
    (hsize : 1 ≤ size) :
    ((draw_icon size p rb).cmds.all Cmd.geomOK) = true := by
  have hdisc : ((discoveryLinkCmds size p).all Cmd.geomOK) = true := by
    unfold discoveryLinkCmds
    split <;> simp [draw_line_geomOK]
  have hsatl : ((satelliteLineCmds size p).all Cmd.geomOK) = true := by
    unfold satelliteLineCmds
    split <;> simp [draw_line_geomOK]
  have hsatn : ((satelliteNodeCmds size p).all Cmd.geomOK) = true := by
    unfold satelliteNodeCmds
    split <;> simp [List.all_append, draw_node_geomOK]
  simp [draw_icon, List.all_append, background_geomOK, outerRing_geomOK,
    glowRing_geomOK, hdisc, hsatl, hsatn, trunkCmds, mainBranchCmds,
    leafBranchCmds, leafNodeCmds, gatewayNodeCmds, junctionNodeCmds,
    rootNodeCmds, draw_line_geomOK, draw_node_geomOK]

/-- Witness for `draw_icon_geom_min_one` at `(256, DARK, true)`. -/
theorem draw_icon_geom_min_one_witness :
    ((draw_icon 256 DARK true).cmds.all Cmd.geomOK) = true :=
  draw_icon_geom_min_one 256 DARK true (by decide)

/-- A line drawn in a color other than `sage_dim` satisfies
`sageDimOnlyOnSatellites`. -/
theorem line_sage_pred (p : Palette) (size x1 y1 x2 y2 : Nat) (col : RGBA)
    (hcol : ¬ col = p.sage_dim) (w2 : Nat) :
    sageDimOnlyOnSatellites p (draw_line size x1 y1 x2 y2 col w2) = true := by
  simp [sageDimOnlyOnSatellites, draw_line, Cmd.usesColor, hcol]

/-- A node none of whose three colors is `sage_dim` satisfies
`sageDimOnlyOnSatellites` on both of its circles. -/
theorem node_sage_pred (p : Palette) (size cx cy o2 i2 : Nat)
    (sC fC bC : RGBA) (w2 : Nat) (hs : ¬ sC = p.sage_dim)
    (hf : ¬ fC = p.sage_dim) (hb : ¬ bC = p.sage_dim) :
    ((draw_node size cx cy o2 i2 sC fC bC w2).all
      (sageDimOnlyOnSatellites p)) = true := by
  rw [draw_node_eq]
  simp [sageDimOnlyOnSatellites, Cmd.usesColor, hs, hf, hb]

/-- A satellite node — stroke `sage_dim`, card-colored background, inner fill
other than `sage_dim` — satisfies `sageDimOnlyOnSatellites`: its outer circle
is a satellite node stroke and its inner dot avoids `sage_dim`. -/
theorem satnode_sage_pred (p : Palette) (size cx cy o2 i2 : Nat)
    (fC : RGBA) (w2 : Nat) (hf : ¬ fC = p.sage_dim) :
    ((draw_node size cx cy o2 i2 p.sage_dim fC p.card w2).all
      (sageDimOnlyOnSatellites p)) = true := by
  rw [draw_node_eq]
  simp [sageDimOnlyOnSatellites, Cmd.usesColor, Cmd.isSatelliteNodeStroke, hf]

/-- In any palette whose `sage_dim` differs from every other entry it could
collide with, the whole render uses `sage_dim` only as satellite node
strokes. -/
theorem draw_icon_sage_dim_only (p : Palette) (size : Nat) (rb : Bool)
    (hbg : ¬ p.bg = p.sage_dim) (hring : ¬ p.ring = p.sage_dim)
    (hlg : ¬ p.line_green = p.sage_dim) (hle : ¬ p.line_earth = p.sage_dim)
    (hlf : ¬ p.line_faint = p.sage_dim) (hearth : ¬ p.earth = p.sage_dim)
    (hgreen : ¬ p.green = p.sage_dim) (hsage : ¬ p.sage = p.sage_dim)
    (hcard : ¬ p.card = p.sage_dim)
    (hsl : ¬ (⟨p.sage.r, p.sage.g, p.sage.b, 38⟩ : RGBA) = p.sage_dim) :
    ((draw_icon size p rb).cmds.all (sageDimOnlyOnSatellites p)) = true := by
  have hbgl : ((backgroundCmds size p rb).all (sageDimOnlyOnSatellites p)) = true := by
    unfold backgroundCmds
    split <;> simp [sageDimOnlyOnSatellites, Cmd.usesColor, hbg]
  have hringl : ((outerRingCmds size p).all (sageDimOnlyOnSatellites p)) = true := by
    unfold outerRingCmds
    split <;> simp [sageDimOnlyOnSatellites, Cmd.usesColor, hring]
  have hglowl : ((glowRingCmds size p).all (sageDimOnlyOnSatellites p)) = true := by
    unfold glowRingCmds
    split <;> simp [sageDimOnlyOnSatellites, Cmd.usesColor, hring]
  have hdiscl : ((discoveryLinkCmds size p).all (sageDimOnlyOnSatellites p)) = true := by
    unfold discoveryLinkCmds
    split <;> simp [line_sage_pred, hlf]
  have hsatll : ((satelliteLineCmds size p).all (sageDimOnlyOnSatellites p)) = true := by
    unfold satelliteLineCmds
    split <;> simp [line_sage_pred, hsl]
  have hsatnl : ((satelliteNodeCmds size p).all (sageDimOnlyOnSatellites p)) = true := by
    unfold satelliteNodeCmds
    split <;> simp [List.all_append, satnode_sage_pred, hsage]
  simp [draw_icon, List.all_append, hbgl, hringl, hglowl, hdiscl, hsatll,
    hsatnl, trunkCmds, mainBranchCmds, leafBranchCmds, leafNodeCmds,
    gatewayNodeCmds, junctionNodeCmds, rootNodeCmds, line_sage_pred,
    node_sage_pred, hlg, hle, hearth, hgreen, hcard]

/-- **C10.** For the repository's palettes and every size ≥ 48, the two
satellite connector lines are drawn in a color computed inside the renderer —
the RGB of the palette's solid `sage` entry with fixed alpha 38 — which
differs from the pre-blended `sage_dim` entry (alpha 127); `sage_dim` itself
appears in the render only as the stroke of the two satellite nodes. -/
theorem satellite_line_color (p : Palette) (hp : p = DARK ∨ p = LIGHT)
    (size : Nat) (h48 : 48 ≤ size) (rb : Bool) :
    satelliteLineCmds size p =
      [Cmd.line (scN 128 size) (scN 132 size) (scN 96 size) (scN 156 size)
          ⟨p.sage.r, p.sage.g, p.sage.b, 38⟩ (lw 4 size),
       Cmd.line (scN 128 size) (scN 132 size) (scN 164 size) (scN 152 size)
          ⟨p.sage.r, p.sage.g, p.sage.b, 38⟩ (lw 4 size)] ∧
    (⟨p.sage.r, p.sage.g, p.sage.b, 38⟩ : RGBA) ≠ p.sage_dim ∧
    ((satelliteNodeCmds size p).countP (Cmd.isSatelliteNodeStroke p)) = 2 ∧
    ((draw_icon size p rb).cmds.all (sageDimOnlyOnSatellites p)) = true := by
  refine ⟨?_, ?_, ?_, ?_⟩
  · unfold satelliteLineCmds
    rw [if_pos h48]
    rfl
  · rcases hp with rfl | rfl <;> decide
  · unfold satelliteNodeCmds
    rw [if_pos h48, draw_node_eq, draw_node_eq]
    rcases hp with rfl | rfl <;>
      simp [List.countP_cons, Cmd.isSatelliteNodeStroke, DARK, LIGHT]
  · rcases hp with rfl | rfl <;>
      exact draw_icon_sage_dim_only _ size rb (by decide) (by decide)
        (by decide) (by decide) (by decide) (by decide) (by decide)
        (by decide) (by decide) (by decide)

/-- Witness for `satellite_line_color` at `(DARK, 48, true)`. -/
theorem satellite_line_color_witness :
    satelliteLineCmds 48 DARK =
      [Cmd.line (scN 128 48) (scN 132 48) (scN 96 48) (scN 156 48)
          ⟨DARK.sage.r, DARK.sage.g, DARK.sage.b, 38⟩ (lw 4 48),
       Cmd.line (scN 128 48) (scN 132 48) (scN 164 48) (scN 152 48)
          ⟨DARK.sage.r, DARK.sage.g, DARK.sage.b, 38⟩ (lw 4 48)] ∧
    (⟨DARK.sage.r, DARK.sage.g, DARK.sage.b, 38⟩ : RGBA) ≠ DARK.sage_dim ∧
    ((satelliteNodeCmds 48 DARK).countP (Cmd.isSatelliteNodeStroke DARK)) = 2 ∧
    ((draw_icon 48 DARK true).cmds.all (sageDimOnlyOnSatellites DARK)) = true :=
  satellite_line_color DARK (Or.inl rfl) 48 (by decide) true
